import Mathlib

/-!
Verification of the Succession Signal engine (`succession_signal.py`).

The development shallowly embeds the two core components of the repository:

* `scrape_website_data` — the Signal Extractor.  The network fetch and the
  HTML/regex scanning are abstracted into a `PageData` value describing what
  the parse of a successfully fetched page produced (title element text,
  the 4-digit numbers matched by the two copyright regular expressions, the
  presence of blog/careers links, a scanned last-updated date, text length);
  a failed fetch/parse is an `Except.error` carrying the exception message.
  Everything from the `copyright_matches` list onwards (the [1990, 2024]
  window filter, the `max(...) if ... else None` reduction, and the entire
  failure branch) is translated line by line from the source.

* `calculate_succession_score` — the Succession Scorer, translated rule by
  rule from the source.  Python's `datetime.now().year` becomes an explicit
  `currentYear : Int` argument; dictionary lookups with defaults
  (`business_data.get('industry', '')`, `website_data.get('accessible')`)
  become `Option` fields read with the same defaults; Python string
  containment (`kw in industry`) and `str.lower()` are modelled by
  `strContains` and `pyLower` below (ASCII lowering, which is what the
  source's inputs exercise).
-/

/-- Does the second list start with the first?  Model of matching a needle at
the head of a haystack. -/
def leadsWith : List Char → List Char → Bool
  | [], _ => true
  | _ :: _, [] => false
  | a :: as, b :: bs => a == b && leadsWith as bs

/-- Does the needle occur contiguously anywhere in the haystack?  Model of
Python's `needle in haystack` on strings. -/
def containsSeq (needle : List Char) : List Char → Bool
  | [] => leadsWith needle []
  | b :: bs => leadsWith needle (b :: bs) || containsSeq needle bs

/-- Python `needle in haystack` for strings (substring containment). -/
def strContains (haystack needle : String) : Bool :=
  containsSeq needle.data haystack.data

/-- ASCII lowering of one character, as Python's `str.lower` acts on the
ASCII range (the only range the program's data exercises). -/
def lowerChar (c : Char) : Char :=
  if 65 ≤ c.toNat ∧ c.toNat ≤ 90 then Char.ofNat (c.toNat + 32) else c

/-- Python `s.lower()` (ASCII model). -/
def pyLower (s : String) : String :=
  ⟨s.data.map lowerChar⟩

/-- A business record as the scorer reads it.  Every field the Python code
accesses with `business_data.get(...)` is an `Option`; the scorer reads each
with the very default the source supplies (`''` for strings, `0` for the
revenue, plain `None`-falsiness for `founded_year`). -/
structure BusinessRecord where
  name : String
  industry : Option String
  location : Option String
  website : Option String
  founded_year : Option Int
  estimated_revenue : Option Int
  employees : Option Nat

/-- The signal set `scrape_website_data` returns (one Python dict in the
source; the failure branch fills every field with its empty/zero default). -/
structure WebsiteSignals where
  accessible : Bool
  error : Option String
  title : String
  copyright_years : List Int
  latest_copyright : Option Int
  has_blog : Bool
  has_careers : Bool
  last_updated : Option (Nat × Nat × Nat)
  text_length : Nat

/-- What parsing one successfully fetched page yields, before the extractor
post-processes it: the title element's text (if a title element exists), the
list of 4-digit numbers the two copyright regular expressions matched (in
order), whether a blog/news link and a careers/jobs/hiring link were found,
the first parseable last-updated date, and the length of the lowered text. -/
structure PageData where
  title : Option String
  copyright_matches : List Int
  blog_link : Bool
  careers_link : Bool
  last_updated : Option (Nat × Nat × Nat)
  text_len : Nat

/-- Python `max(l)` on a nonempty list of ints (`None` on the empty list),
as the source uses in `max(copyright_years) if copyright_years else None`. -/
def maxOrNone (l : List Int) : Option Int :=
  match l with
  | [] => none
  | x :: xs => some (xs.foldl max x)

/-- The [1990, 2024] plausibility filter the extractor applies to the raw
copyright matches (`if 1990 <= int(year) <= 2024`). -/
def windowFilter (ms : List Int) : List Int :=
  ms.filter (fun v => decide (1990 ≤ v) && decide (v ≤ 2024))

/-- The Signal Extractor.  A fetch/parse failure arrives as `Except.error e`
(the caught exception's message) and is turned into the all-defaults record
with `accessible := false`; the function is total, so nothing ever escapes
to the caller.  On success the extractor keeps the title text stripped, the
copyright matches filtered to [1990, 2024] with their maximum as
`latest_copyright`, and the remaining page facts verbatim. -/
def scrape_website_data (fetch : Except String PageData) : WebsiteSignals :=
  match fetch with
  | Except.error e =>
      { accessible := false
        error := some e
        title := ""
        copyright_years := []
        latest_copyright := none
        has_blog := false
        has_careers := false
        last_updated := none
        text_length := 0 }
  | Except.ok p =>
      let title_text := match p.title with
        | some t => t.trim
        | none => ""
      let copyright_years :=
        if p.copyright_matches ≠ [] then windowFilter p.copyright_matches else []
      { accessible := true
        error := none
        title := title_text
        copyright_years := copyright_years
        latest_copyright := maxOrNone copyright_years
        has_blog := p.blog_link
        has_careers := p.careers_link
        last_updated := p.last_updated
        text_length := p.text_len }

/-- Scoring rule 1/2: business age.  `if business_data.get('founded_year'):`
is Python truthiness, so a present-but-zero year also skips the rule. -/
def ageRule (currentYear : Int) (founded_year : Option Int) : Nat × List String :=
  match founded_year with
  | none => (0, [])
  | some f =>
      if f = 0 then (0, [])
      else
        let age := currentYear - f
        if age ≥ 20 then (25, ["Established business (" ++ toString age ++ " years)"])
        else if age ≥ 10 then (15, ["Mature business (" ++ toString age ++ " years)"])
        else (0, [])

/-- Scoring rule 4: stale copyright (`if latest_copyright and
current_year - latest_copyright >= 3`; the leading conjunct is Python int
truthiness, hence the `v ≠ 0` guard). -/
def copyrightRule (currentYear : Int) (latest_copyright : Option Int) :
    Nat × List String :=
  match latest_copyright with
  | none => (0, [])
  | some v =>
      if v ≠ 0 ∧ currentYear - v ≥ 3 then
        (15, ["Copyright last updated " ++ toString v])
      else (0, [])

/-- Scoring rule 5: no blog/news section. -/
def blogRule (has_blog : Bool) : Nat × List String :=
  if !has_blog then (10, ["No blog/news section"]) else (0, [])

/-- Scoring rule 6: no careers/hiring page. -/
def careersRule (has_careers : Bool) : Nat × List String :=
  if !has_careers then (10, ["No careers/hiring page"]) else (0, [])

/-- Scoring rules 3–6 as the source nests them: an inaccessible site earns
the flat +20 and nothing else is looked at; an accessible one runs the
copyright, blog and careers rules in order. -/
def websiteRules (currentYear : Int) (s : WebsiteSignals) :
    List (Nat × List String) :=
  if !s.accessible then [(20, ["Website inaccessible/outdated"])]
  else
    [copyrightRule currentYear s.latest_copyright,
     blogRule s.has_blog,
     careersRule s.has_careers]

/-- The fixed high-succession industry keyword list, in the source's order. -/
def high_succession_industries : List String :=
  ["construction", "manufacturing", "automotive", "plumbing",
   "electrical", "hvac", "roofing", "landscaping", "trucking"]

/-- Scoring rule 7: industry keywords.  The source lowers the industry once,
loops over the keyword list and `break`s at the first containment hit, so at
most one +15 and one factor result; `List.find?` is that first hit. -/
def industryRule (industry : Option String) : Nat × List String :=
  let ind := pyLower (industry.getD (""))
  match high_succession_industries.find? (fun kw => strContains ind kw) with
  | some _ => (15, ["High-succession industry (" ++ ind ++ ")"])
  | none => (0, [])

/-- Scoring rule 8: the $2M–$10M revenue sweet spot (missing revenue reads
as the source's default `0`, which is out of range). -/
def revenueRule (estimated_revenue : Option Int) : Nat × List String :=
  let revenue := estimated_revenue.getD 0
  if 2000000 ≤ revenue ∧ revenue ≤ 10000000 then
    (20, ["Target revenue range ($2M-$10M)"])
  else (0, [])

/-- The fixed geography token list, in the source's order. -/
def target_states : List String :=
  ["va", "virginia", "co", "colorado", "tn", "tennessee"]

/-- Scoring rule 9: target geography.  The source tests each token for
containment anywhere in the whole lowered `location` string
(`any(state in location for state in [...])`). -/
def locationRule (location : Option String) : Nat × List String :=
  let loc := pyLower (location.getD (""))
  if target_states.any (fun st => strContains loc st) then
    (10, ["Target geographic region"])
  else (0, [])

/-- All nine rules in the source's evaluation order, each as its
(points added, factors appended) contribution. -/
def ruleResults (currentYear : Int) (r : BusinessRecord) (s : WebsiteSignals) :
    List (Nat × List String) :=
  ageRule currentYear r.founded_year ::
    websiteRules currentYear s ++
      [industryRule r.industry,
       revenueRule r.estimated_revenue,
       locationRule r.location]

/-- The pre-normalization accumulator `score` of the source (returned as
`raw_score`): the running sum of every rule's points. -/
def rawScore (currentYear : Int) (r : BusinessRecord) (s : WebsiteSignals) : Nat :=
  ((ruleResults currentYear r s).map Prod.fst).sum

/-- The `factors` list of the source: every fired rule's string, in
evaluation order. -/
def scoreFactors (currentYear : Int) (r : BusinessRecord) (s : WebsiteSignals) :
    List String :=
  ((ruleResults currentYear r s).map Prod.snd).flatten

/-- `normalized_score = min(100, (score / max_possible_score) * 100)` with
the fixed denominator `max_possible_score = 115`, over the rationals. -/
def normalizedScore (currentYear : Int) (r : BusinessRecord)
    (s : WebsiteSignals) : ℚ :=
  min 100 ((rawScore currentYear r s : ℚ) / 115 * 100)

/-- Python's `round(x, 1)` on an exact rational: one decimal place,
ties to even (banker's rounding). -/
def pyRound1 (x : ℚ) : ℚ :=
  let t : ℚ := 10 * x
  let f : Int := Int.floor t
  if t - (f : ℚ) < 1 / 2 then (f : ℚ) / 10
  else if t - (f : ℚ) > 1 / 2 then ((f + 1 : Int) : ℚ) / 10
  else if f % 2 = 0 then (f : ℚ) / 10 else ((f + 1 : Int) : ℚ) / 10

/-- The category / priority-marker branch of the source
(`>= 70 → High/red`, `>= 40 → Medium/yellow`, otherwise `Low/green`). -/
def categorize (ns : ℚ) : String × String :=
  if ns ≥ 70 then ("High", "🔴")
  else if ns ≥ 40 then ("Medium", "🟡")
  else ("Low", "🟢")

/-- The scorer's result dict. -/
structure ScoreResult where
  score : ℚ
  category : String
  priority : String
  factors : List String
  raw_score : Nat
deriving DecidableEq

/-- The Succession Scorer.  `currentYear` stands for the source's
`datetime.now().year`; everything else is a pure function of the record and
the attached website signals. -/
def calculate_succession_score (currentYear : Int) (r : BusinessRecord)
    (s : WebsiteSignals) : ScoreResult :=
  { score := pyRound1 (normalizedScore currentYear r s)
    category := (categorize (normalizedScore currentYear r s)).1
    priority := (categorize (normalizedScore currentYear r s)).2
    factors := scoreFactors currentYear r s
    raw_score := rawScore currentYear r s }

/-- Is the character ASCII whitespace? -/
def isSpaceChar (c : Char) : Bool :=
  c == ' ' || c == '\t' || c == '\n' || c == '\r'

/-- Whitespace stripped from both ends (Python `str.strip()`). -/
def trimChars (l : List Char) : List Char :=
  ((l.dropWhile isSpaceChar).reverse.dropWhile isSpaceChar).reverse

/-- Everything after the last comma (the whole string when it has no
comma), i.e. Python `s.split(',')[-1]`. -/
def afterLastComma (l : List Char) : List Char :=
  l.foldl (fun acc c => if c == ',' then [] else acc ++ [c]) []

/-- Modelled from the spec (for claim C2 only): the region token of a
location string — "the substring after the last comma", stripped and
lowered for the case-insensitive comparison. -/
def specRegionToken (loc : String) : String :=
  pyLower ⟨trimChars (afterLastComma loc.data)⟩

/-- Modelled from the spec (for claim C2 only): the target-geography names
and abbreviations Virginia/VA, Colorado/CO, Tennessee/TN. -/
def specGeoNames : List String :=
  ["virginia", "va", "colorado", "co", "tennessee", "tn"]

/-- Modelled from the spec (for claim C2 only): does the record's region
token match one of the target-geography names, case-insensitively? -/
def specGeoMatch (loc : String) : Bool :=
  specGeoNames.any (fun nm => specRegionToken loc == nm)

/-- The all-absent business record (every optional field missing). -/
def emptyRecord : BusinessRecord :=
  { name := ""
    industry := none
    location := none
    website := none
    founded_year := none
    estimated_revenue := none
    employees := none }

/-- The all-defaults signal set: what the scorer sees when the record holds
no `website_data` at all (every dict lookup returns its falsy default), and
equally what the extractor's failure branch produces modulo the error
string. -/
def defaultSignals : WebsiteSignals :=
  { accessible := false
    error := none
    title := ""
    copyright_years := []
    latest_copyright := none
    has_blog := false
    has_careers := false
    last_updated := none
    text_length := 0 }

/-- A fully active signal set: accessible, fresh, with blog and careers
pages — the one configuration in which no website rule fires. -/
def activeSignals : WebsiteSignals :=
  { accessible := true
    error := none
    title := ""
    copyright_years := []
    latest_copyright := none
    has_blog := true
    has_careers := true
    last_updated := none
    text_length := 0 }

/-- A record hitting every record-side rule at its maximum: 34 years old,
high-succession industry, in-range revenue, target geography. -/
def recMax : BusinessRecord :=
  { name := "Blue Ridge HVAC Services"
    industry := some ("HVAC Contracting")
    location := some ("Charlottesville, VA")
    website := some ("blueridgehvac.net")
    founded_year := some 1990
    estimated_revenue := some 3200000
    employees := some 18 }

/-- Signals hitting every website-side rule at its maximum: accessible but
stale (copyright 2019), no blog, no careers. -/
def sigMax : WebsiteSignals :=
  { accessible := true
    error := none
    title := "Blue Ridge HVAC"
    copyright_years := [2019]
    latest_copyright := some 2019
    has_blog := false
    has_careers := false
    last_updated := none
    text_length := 5000 }

/-- A record whose age crosses the 20-year tier between 2023 and 2024. -/
def recBoundary : BusinessRecord :=
  { name := "Denver Data Recovery Inc"
    industry := none
    location := none
    website := none
    founded_year := some 2004
    estimated_revenue := none
    employees := none }

/-- A base page for building concrete extractor inputs. -/
def basePage : PageData :=
  { title := none
    copyright_matches := []
    blog_link := false
    careers_link := false
    last_updated := none
    text_len := 0 }

lemma leadsWith_iff (n : List Char) : ∀ h : List Char,
    leadsWith n h = true ↔ ∃ t, h = n ++ t := by
  induction n with
  | nil => intro h; simp [leadsWith]
  | cons a as ih =>
      intro h
      cases h with
      | nil => simp [leadsWith]
      | cons b bs =>
          simp only [leadsWith, Bool.and_eq_true, beq_iff_eq, ih bs,
            List.cons_append, List.cons.injEq]
          constructor
          · rintro ⟨rfl, t, rfl⟩; exact ⟨t, rfl, rfl⟩
          · rintro ⟨t, rfl, rfl⟩; exact ⟨rfl, t, rfl⟩

lemma containsSeq_iff (n : List Char) : ∀ h : List Char,
    containsSeq n h = true ↔ ∃ p t, h = p ++ n ++ t := by
  intro h
  induction h with
  | nil =>
      simp only [containsSeq, leadsWith_iff]
      constructor
      · rintro ⟨t, ht⟩
        exact ⟨[], t, by simpa using ht⟩
      · rintro ⟨p, t, hpt⟩
        have hp : p = [] := by
          cases p with
          | nil => rfl
          | cons x xs => simp at hpt
        subst hp
        exact ⟨t, by simpa using hpt⟩
  | cons b bs ih =>
      simp only [containsSeq, Bool.or_eq_true, leadsWith_iff, ih]
      constructor
      · rintro (⟨t, ht⟩ | ⟨p, t, hpt⟩)
        · exact ⟨[], t, by simpa using ht⟩
        · exact ⟨b :: p, t, by simp [hpt]⟩
      · rintro ⟨p, t, hpt⟩
        cases p with
        | nil => exact Or.inl ⟨t, by simpa using hpt⟩
        | cons x xs =>
            simp only [List.cons_append, List.cons.injEq] at hpt
            exact Or.inr ⟨xs, t, hpt.2⟩

lemma strContains_iff (hay nd : String) :
    strContains hay nd = true ↔ ∃ p t, hay.data = p ++ nd.data ++ t := by
  simp [strContains, containsSeq_iff]

lemma ageRule_shape (y : Int) (fy : Option Int) :
    ((ageRule y fy).1 = 0 ↔ (ageRule y fy).2 = []) ∧
      (ageRule y fy).2.length ≤ 1 ∧ (ageRule y fy).1 ≤ 25 := by
  cases fy with
  | none => simp [ageRule]
  | some f =>
      simp only [ageRule]
      split_ifs <;> simp

lemma copyrightRule_shape (y : Int) (lc : Option Int) :
    ((copyrightRule y lc).1 = 0 ↔ (copyrightRule y lc).2 = []) ∧
      (copyrightRule y lc).2.length ≤ 1 ∧ (copyrightRule y lc).1 ≤ 15 := by
  cases lc with
  | none => simp [copyrightRule]
  | some v =>
      simp only [copyrightRule]
      split_ifs <;> simp

lemma blogRule_shape (b : Bool) :
    ((blogRule b).1 = 0 ↔ (blogRule b).2 = []) ∧
      (blogRule b).2.length ≤ 1 ∧ (blogRule b).1 ≤ 10 := by
  unfold blogRule
  cases b <;> simp

lemma careersRule_shape (b : Bool) :
    ((careersRule b).1 = 0 ↔ (careersRule b).2 = []) ∧
      (careersRule b).2.length ≤ 1 ∧ (careersRule b).1 ≤ 10 := by
  unfold careersRule
  cases b <;> simp

lemma industryRule_shape (ind : Option String) :
    ((industryRule ind).1 = 0 ↔ (industryRule ind).2 = []) ∧
      (industryRule ind).2.length ≤ 1 ∧ (industryRule ind).1 ≤ 15 := by
  simp only [industryRule]
  rcases hf : List.find? (fun kw => strContains (pyLower (ind.getD (""))) kw)
      high_succession_industries with _ | kw <;> simp [hf]

lemma revenueRule_shape (rev : Option Int) :
    ((revenueRule rev).1 = 0 ↔ (revenueRule rev).2 = []) ∧
      (revenueRule rev).2.length ≤ 1 ∧ (revenueRule rev).1 ≤ 20 := by
  simp only [revenueRule]
  split_ifs <;> simp

lemma locationRule_shape (loc : Option String) :
    ((locationRule loc).1 = 0 ↔ (locationRule loc).2 = []) ∧
      (locationRule loc).2.length ≤ 1 ∧ (locationRule loc).1 ≤ 10 := by
  simp only [locationRule]
  split_ifs <;> simp

lemma websiteRules_shape (y : Int) (s : WebsiteSignals) :
    (∀ pr ∈ websiteRules y s, (pr.1 = 0 ↔ pr.2 = []) ∧ pr.2.length ≤ 1) ∧
      ((websiteRules y s).map Prod.fst).sum ≤ 35 := by
  unfold websiteRules
  cases s.accessible with
  | false => simp
  | true =>
      simp only [Bool.not_true, Bool.false_eq_true, if_false, List.mem_cons,
        List.not_mem_nil, or_false, List.map_cons, List.map_nil, List.sum_cons,
        List.sum_nil]
      constructor
      · rintro pr (rfl | rfl | rfl)
        · exact ⟨(copyrightRule_shape y s.latest_copyright).1,
            (copyrightRule_shape y s.latest_copyright).2.1⟩
        · exact ⟨(blogRule_shape s.has_blog).1, (blogRule_shape s.has_blog).2.1⟩
        · exact ⟨(careersRule_shape s.has_careers).1,
            (careersRule_shape s.has_careers).2.1⟩
      · have h1 := (copyrightRule_shape y s.latest_copyright).2.2
        have h2 := (blogRule_shape s.has_blog).2.2
        have h3 := (careersRule_shape s.has_careers).2.2
        omega

lemma rawScore_eq (y : Int) (r : BusinessRecord) (s : WebsiteSignals) :
    rawScore y r s =
      (ageRule y r.founded_year).1 + ((websiteRules y s).map Prod.fst).sum +
        ((industryRule r.industry).1 + (revenueRule r.estimated_revenue).1 +
          (locationRule r.location).1) := by
  simp [rawScore, ruleResults]
  omega

lemma rawScore_le_105 (y : Int) (r : BusinessRecord) (s : WebsiteSignals) :
    rawScore y r s ≤ 105 := by
  rw [rawScore_eq]
  have h1 := (ageRule_shape y r.founded_year).2.2
  have h2 := (websiteRules_shape y s).2
  have h3 := (industryRule_shape r.industry).2.2
  have h4 := (revenueRule_shape r.estimated_revenue).2.2
  have h5 := (locationRule_shape r.location).2.2
  omega

/-- C1 (counterexample): no input at all attains `raw_score = 115`, so the
claimed "exists an input for which raw_score = 115" is false — the
normalization denominator 115 is not attainable. -/
theorem C1_counterexample :
    ¬ ∃ (y : Int) (r : BusinessRecord) (s : WebsiteSignals),
        rawScore y r s = 115 := by
  rintro ⟨y, r, s, h⟩
  have hb := rawScore_le_105 y r s
  omega

/-- C1 (amended): the raw score is bounded by 105 on every input — so in
particular it never exceeds 115 — and 105 is attained (an established
HVAC business in Virginia with an accessible but stale website); the fixed
denominator 115 therefore strictly exceeds the maximum attainable
`raw_score`, which is 105. -/
theorem C1_raw_score_max :
    (∀ (y : Int) (r : BusinessRecord) (s : WebsiteSignals),
        rawScore y r s ≤ 105) ∧
      rawScore 2024 recMax sigMax = 105 := by
  constructor
  · exact rawScore_le_105
  · decide

/-- C2 (counterexample): for the record located at "Vancouver, WA" the
region token after the last comma is "wa", which matches none of the six
target-geography names, yet the code still awards the +10 geography points
(the substring "va" occurs inside "vancouver"). -/
theorem C2_counterexample :
    specGeoMatch ("Vancouver, WA") = false ∧
      (locationRule (some ("Vancouver, WA"))).1 = 10 := by
  decide

/-- C2 (amended): the geography rule awards its +10 points exactly when one
of the six lowercase tokens va/virginia/co/colorado/tn/tennessee occurs as a
substring anywhere in the lowercased `location` string — not merely in the
region token after the last comma — and awards nothing otherwise. -/
theorem C2_geography_substring :
    ∀ loc : String,
      ((locationRule (some loc)).1 = 0 ∨ (locationRule (some loc)).1 = 10) ∧
        ((locationRule (some loc)).1 = 10 ↔
          ∃ st ∈ target_states, ∃ p t,
            (pyLower loc).data = p ++ st.data ++ t) := by
  intro loc
  simp only [locationRule, Option.getD_some]
  split_ifs with h
  · refine ⟨Or.inr rfl, iff_of_true rfl ?_⟩
    simp only [List.any_eq_true] at h
    obtain ⟨st, hmem, hc⟩ := h
    rw [strContains_iff] at hc
    exact ⟨st, hmem, hc⟩
  · refine ⟨Or.inl rfl, ?_⟩
    simp only [List.any_eq_true] at h
    constructor
    · intro h10; exact absurd h10 (by norm_num)
    · rintro ⟨st, hmem, p, t, hpt⟩
      exact absurd ⟨st, hmem, (strContains_iff _ _).2 ⟨p, t, hpt⟩⟩ h

/-- C3 (counterexample): the all-defaults input (every record field absent,
every signal field at its falsy default) yields `raw_score = 20`, not 0:
the default `accessible = false` makes the website rule fire. -/
theorem C3_counterexample :
    rawScore 2024 emptyRecord defaultSignals = 20 ∧
      rawScore 2024 emptyRecord defaultSignals ≠ 0 := by
  decide

/-- C3 (amended): each rule whose required optional field is absent skips
(no points, no factor) — founded year, latest copyright, industry, revenue
and location all no-op when missing — but the all-defaults record yields
`raw_score = 20`, because absent website signals read as inaccessible and
the website rule fires; `raw_score = 0` is reached exactly on inputs such as
accessible signals with blog and careers present and every other rule
skipping. -/
theorem C3_missing_fields_skip :
    (∀ y : Int, ageRule y none = (0, [])) ∧
      industryRule none = (0, []) ∧
      revenueRule none = (0, []) ∧
      locationRule none = (0, []) ∧
      (∀ y : Int, copyrightRule y none = (0, [])) ∧
      (∀ y : Int, rawScore y emptyRecord defaultSignals = 20) ∧
      (∀ y : Int, rawScore y emptyRecord activeSignals = 0) := by
  refine ⟨fun y => rfl, rfl, rfl, rfl, fun y => rfl, fun y => rfl, fun y => rfl⟩

/-- C4: every fetch/parse failure (the caught exception's message `e`)
produces `accessible = false` with the error description and all other
fields at their empty/zero defaults; the extractor is a total function, so
the failure can never escape to the caller. -/
theorem C4_failure_defaults :
    ∀ e : String,
      scrape_website_data (Except.error e) =
        { accessible := false
          error := some e
          title := ""
          copyright_years := []
          latest_copyright := none
          has_blog := false
          has_careers := false
          last_updated := none
          text_length := 0 } := by
  intro e
  rfl

/-- C5: whenever the signals say `accessible = false`, the website block
reduces to the single +20 "Website inaccessible/outdated" contribution — the
copyright, blog and careers rules are never evaluated — so the raw score and
factor list are exactly the remaining rules' contributions plus that +20,
whatever `latest_copyright`, `has_blog`, `has_careers` or any other field
holds. -/
theorem C5_inaccessible_contribution :
    ∀ (y : Int) (r : BusinessRecord) (s : WebsiteSignals),
      s.accessible = false →
        websiteRules y s = [(20, ["Website inaccessible/outdated"])] ∧
          rawScore y r s =
            (ageRule y r.founded_year).1 + 20 +
              ((industryRule r.industry).1 + (revenueRule r.estimated_revenue).1 +
                (locationRule r.location).1) ∧
          scoreFactors y r s =
            (ageRule y r.founded_year).2 ++ ["Website inaccessible/outdated"] ++
              ((industryRule r.industry).2 ++ (revenueRule r.estimated_revenue).2 ++
                (locationRule r.location).2) := by
  intro y r s h
  have hw : websiteRules y s = [(20, ["Website inaccessible/outdated"])] := by
    simp [websiteRules, h]
  refine ⟨hw, ?_, ?_⟩
  · rw [rawScore_eq, hw]
    simp
  · simp [scoreFactors, ruleResults, hw]

/-- C5 (witness): the theorem applied to the all-defaults input, whose
signals are inaccessible. -/
theorem C5_witness :
    websiteRules 2024 defaultSignals = [(20, ["Website inaccessible/outdated"])] :=
  (C5_inaccessible_contribution 2024 emptyRecord defaultSignals rfl).1

/-- C6 (counterexample): the scorer also reads `datetime.now().year`, so two
calls on the identical record and signals made in different years disagree —
a business founded in 2004 scores raw 15 (age 19) against current year 2023
but raw 25 (age 20) against 2024.  The result is therefore not a function of
the BusinessRecord and WebsiteSignals alone. -/
theorem C6_counterexample :
    (calculate_succession_score 2023 recBoundary activeSignals).raw_score ≠
      (calculate_succession_score 2024 recBoundary activeSignals).raw_score := by
  decide

/-- C6 (amended): the scorer is deterministic and idempotent as a function
of the current year together with the record and signals: any two calls that
agree on all three yield identical results (raw score, score, category,
priority and the factors sequence, order included). -/
theorem C6_deterministic_given_year :
    ∀ (y : Int) (r1 r2 : BusinessRecord) (s1 s2 : WebsiteSignals),
      r1 = r2 → s1 = s2 →
        calculate_succession_score y r1 s1 = calculate_succession_score y r2 s2 := by
  intro y r1 r2 s1 s2 hr hs
  rw [hr, hs]

/-- C6 (witness): determinism at a concrete input. -/
theorem C6_witness :
    calculate_succession_score 2024 recBoundary activeSignals =
      calculate_succession_score 2024 recBoundary activeSignals :=
  C6_deterministic_given_year 2024 recBoundary recBoundary activeSignals
    activeSignals rfl rfl

/-- C7: the scorer's category and priority marker are exactly the pure
function `categorize` of the normalized score; that function yields High/red
at score ≥ 70, Medium/yellow at 40 ≤ score < 70, Low/green at score < 40,
and always exactly one of those three category/marker pairs. -/
theorem C7_category_tiers :
    ∀ (y : Int) (r : BusinessRecord) (s : WebsiteSignals) (x : ℚ),
      ((calculate_succession_score y r s).category =
          (categorize (normalizedScore y r s)).1 ∧
        (calculate_succession_score y r s).priority =
          (categorize (normalizedScore y r s)).2) ∧
        (70 ≤ x → categorize x = ("High", "🔴")) ∧
        (40 ≤ x ∧ x < 70 → categorize x = ("Medium", "🟡")) ∧
        (x < 40 → categorize x = ("Low", "🟢")) ∧
        (categorize x = ("High", "🔴") ∨ categorize x = ("Medium", "🟡") ∨
          categorize x = ("Low", "🟢")) := by
  intro y r s x
  refine ⟨⟨rfl, rfl⟩, ?_, ?_, ?_, ?_⟩
  · intro hx
    simp only [categorize, ge_iff_le, if_pos hx]
  · rintro ⟨h40, h70⟩
    have : ¬ (70 : ℚ) ≤ x := not_le.2 h70
    simp only [categorize, ge_iff_le, if_neg this, if_pos h40]
  · intro hx
    have h1 : ¬ (70 : ℚ) ≤ x := not_le.2 (hx.trans (by norm_num))
    have h2 : ¬ (40 : ℚ) ≤ x := not_le.2 hx
    simp only [categorize, ge_iff_le, if_neg h1, if_neg h2]
  · simp only [categorize, ge_iff_le]
    split_ifs <;> simp

lemma industryRule_fst_eq_15_iff (ind : String) :
    (industryRule (some ind)).1 = 15 ↔
      ∃ kw ∈ high_succession_industries, ∃ p t,
        (pyLower ind).data = p ++ kw.data ++ t := by
  simp only [industryRule, Option.getD_some]
  rcases hf : List.find? (fun kw => strContains (pyLower ind) kw)
      high_succession_industries with _ | kw
  · simp only [hf]
    constructor
    · intro h; norm_num at h
    · rintro ⟨kw, hmem, p, t, hpt⟩
      have hnone := List.find?_eq_none.1 hf kw hmem
      exact absurd ((strContains_iff _ _).2 ⟨p, t, hpt⟩) hnone
  · simp only [hf]
    refine ⟨fun _ => ⟨kw, List.mem_of_find?_eq_some hf,
      (strContains_iff _ _).1 (List.find?_some hf)⟩, fun _ => by trivial⟩

/-- C8: the industry rule contributes at most once — its result is either no
points with no factor, or exactly +15 with exactly one factor — and it
contributes the +15 precisely when some keyword of the fixed 9-term list
occurs in the lowercased (hence case-insensitively matched) industry text;
in particular the mixed-case industry "HVAC and Plumbing", which contains
both the "plumbing" and the "hvac" keyword, still yields +15 and a single
factor. -/
theorem C8_industry_single_hit :
    ∀ ind : String,
      ((industryRule (some ind)).1 = 0 ∧ (industryRule (some ind)).2 = [] ∨
        (industryRule (some ind)).1 = 15 ∧ (industryRule (some ind)).2.length = 1) ∧
        ((industryRule (some ind)).1 = 15 ↔
          ∃ kw ∈ high_succession_industries, ∃ p t,
            (pyLower ind).data = p ++ kw.data ++ t) ∧
        industryRule (some ("HVAC and Plumbing")) =
          (15, ["High-succession industry (hvac and plumbing)"]) := by
  intro ind
  refine ⟨?_, industryRule_fst_eq_15_iff ind, by decide⟩
  simp only [industryRule, Option.getD_some]
  rcases hf : List.find? (fun kw => strContains (pyLower ind) kw)
      high_succession_industries with _ | kw <;> simp [hf]

lemma scrape_ok_years (p : PageData) :
    (scrape_website_data (Except.ok p)).copyright_years =
        windowFilter p.copyright_matches ∧
      (scrape_website_data (Except.ok p)).latest_copyright =
        maxOrNone (windowFilter p.copyright_matches) := by
  by_cases h : p.copyright_matches = []
  · simp [scrape_website_data, h, windowFilter]
  · simp [scrape_website_data, h]

/-- C9: on every successfully parsed page, the extractor keeps exactly the
copyright matches inside the fixed [1990, 2024] window (every surviving year
lies in the window, and the surviving list is precisely the windowed filter
of the raw matches); `latest_copyright` is the maximum of the survivors —
absent when none survive — and splicing an out-of-window match such as 1899
or 2099 anywhere into the page's matches leaves `latest_copyright`
unchanged. -/
theorem C9_copyright_window :
    ∀ (p : PageData) (l1 l2 : List Int) (yr : Int),
      yr < 1990 ∨ 2024 < yr →
        (∀ v ∈ (scrape_website_data (Except.ok p)).copyright_years,
            1990 ≤ v ∧ v ≤ 2024) ∧
          (scrape_website_data (Except.ok p)).copyright_years =
            windowFilter p.copyright_matches ∧
          (scrape_website_data (Except.ok p)).latest_copyright =
            maxOrNone (windowFilter p.copyright_matches) ∧
          (scrape_website_data
              (Except.ok { p with copyright_matches := l1 ++ yr :: l2 })).latest_copyright =
            (scrape_website_data
              (Except.ok { p with copyright_matches := l1 ++ l2 })).latest_copyright := by
  intro p l1 l2 yr hyr
  obtain ⟨hy, hl⟩ := scrape_ok_years p
  refine ⟨?_, hy, hl, ?_⟩
  · intro v hv
    rw [hy] at hv
    simp only [windowFilter, List.mem_filter, Bool.and_eq_true,
      decide_eq_true_eq] at hv
    exact hv.2
  · rw [(scrape_ok_years _).2, (scrape_ok_years _).2]
    have hfalse : (decide (1990 ≤ yr) && decide (yr ≤ 2024)) = false := by
      rcases hyr with h | h <;> simp <;> omega
    congr 1
    simp [windowFilter, List.filter_append, List.filter_cons, hfalse]

/-- C9 (witness): a page whose only copyright matches are the out-of-window
1899 and 2099 has the same (absent) `latest_copyright` as one carrying only
1899. -/
theorem C9_witness :
    (scrape_website_data
        (Except.ok { basePage with
          copyright_matches := [1899] ++ 2099 :: [] })).latest_copyright =
      (scrape_website_data
        (Except.ok { basePage with
          copyright_matches := [1899] ++ [] })).latest_copyright :=
  (C9_copyright_window basePage [1899] [] 2099 (Or.inr (by decide))).2.2.2

lemma sum_zero_iff_flatten_nil (l : List (Nat × List String))
    (h : ∀ q ∈ l, q.1 = 0 ↔ q.2 = []) :
    (l.map Prod.fst).sum = 0 ↔ (l.map Prod.snd).flatten = [] := by
  induction l with
  | nil => simp
  | cons a t ih =>
      have ha := h a (List.mem_cons_self a t)
      have ht := ih fun q hq => h q (List.mem_cons_of_mem a hq)
      simp only [List.map_cons, List.sum_cons, List.flatten_cons,
        Nat.add_eq_zero, List.append_eq_nil]
      rw [ha, ht]

/-- C10: in every score result, `raw_score` is the sum of the per-rule point
contributions and `factors` the concatenation of the per-rule factor lists,
rule by rule in evaluation order; every rule contributes either no points
and no factor, or its points together with exactly one factor — so
`raw_score = 0` exactly when the factors list is empty. -/
theorem C10_rule_factor_correspondence :
    ∀ (y : Int) (r : BusinessRecord) (s : WebsiteSignals),
      (calculate_succession_score y r s).raw_score =
          ((ruleResults y r s).map Prod.fst).sum ∧
        (calculate_succession_score y r s).factors =
          ((ruleResults y r s).map Prod.snd).flatten ∧
        (∀ q ∈ ruleResults y r s, (q.1 = 0 ↔ q.2 = []) ∧ q.2.length ≤ 1) ∧
        ((calculate_succession_score y r s).raw_score = 0 ↔
          (calculate_succession_score y r s).factors = []) := by
  intro y r s
  have hq : ∀ q ∈ ruleResults y r s, (q.1 = 0 ↔ q.2 = []) ∧ q.2.length ≤ 1 := by
    intro q hmem
    rw [ruleResults] at hmem
    rcases List.mem_cons.1 hmem with rfl | hmem2
    · exact ⟨(ageRule_shape y r.founded_year).1,
        (ageRule_shape y r.founded_year).2.1⟩
    rcases List.mem_append.1 hmem2 with hw | hrest
    · exact (websiteRules_shape y s).1 q hw
    simp only [List.mem_cons, List.not_mem_nil, or_false] at hrest
    rcases hrest with rfl | rfl | rfl
    · exact ⟨(industryRule_shape r.industry).1, (industryRule_shape r.industry).2.1⟩
    · exact ⟨(revenueRule_shape r.estimated_revenue).1,
        (revenueRule_shape r.estimated_revenue).2.1⟩
    · exact ⟨(locationRule_shape r.location).1, (locationRule_shape r.location).2.1⟩
  exact ⟨rfl, rfl, hq,
    sum_zero_iff_flatten_nil (ruleResults y r s) fun q hqq => (hq q hqq).1⟩
